import Mathlib

/-!
Verification of the leboncoin-bot repository (scraper.py, filters.py,
telegram_bot.py) against its natural-language specification.

The Python source is shallowly embedded: pure string/record manipulation
becomes Lean functions over `String` / `List Char`; `Optional[int]` fields
become `Option Int` with Python truthiness made explicit; the effectful
HTTP retry loop is embedded as a state machine over an oracle of response
statuses and a stream of random draws.
-/

/-! ## Python string primitives -/

/-- ASCII lower-casing of a character, as Python `str.lower` acts on ASCII. -/
def pyCharLower (c : Char) : Char :=
  if c.isUpper then Char.ofNat (c.toNat + 32) else c

/-- Python `str.lower` (ASCII fragment, which covers all text the code compares). -/
def pyLower (s : String) : String :=
  ⟨s.data.map pyCharLower⟩

/-- Python substring test `pat in s` on character lists. -/
def listContainsSub (pat : List Char) : List Char → Bool
  | [] => pat.isEmpty
  | c :: rest => pat.isPrefixOf (c :: rest) || listContainsSub pat rest

/-- Python substring test `pat in s`. -/
def containsSub (s pat : String) : Bool :=
  listContainsSub pat.data s.data

/-- Python `s.endswith(suf)`. -/
def endsWithPy (s suf : String) : Bool :=
  suf.data.isSuffixOf s.data

/-- Python `str.isdigit` (ASCII fragment): nonempty and all characters digits. -/
def isDigitStr (s : String) : Bool :=
  !s.data.isEmpty && s.data.all Char.isDigit

/-! ## CarListing and matches_search (scraper.py lines 58-140)

`CarListing` keeps the fields `matches_search` reads.  Python `Optional[str]`
fields are embedded as `String` with `""` for `None`: the code only ever uses
them through falsiness tests and `x or ""`, under which the two coincide. -/

structure CarListing where
  listing_id : String
  url : String := ""
  title : String
  price : Option Int := none
  mileage : Option Int := none
  year : Option Int := none
  fuel : String := ""
  gearbox : String := ""
  brand : String := ""
  model : String := ""
  engine : String := ""
  location : String := ""
  description : String := ""
  image_url : Option String := none
deriving DecidableEq, Repr

/-- `CarListing.matches_search` (scraper.py lines 78-140), translated clause by
clause: brand aliases, brand substring check, stored-model check, the strict
patterns for short numeric model tokens, and the alphanumeric pattern list. -/
def matches_search (l : CarListing) (searchBrand searchModel : String) : Bool :=
  let title_lower := pyLower l.title
  let brand_lower := pyLower l.brand
  let model_lower := pyLower l.model
  let search_brand_lower := pyLower searchBrand
  let search_model_lower := pyLower searchModel
  let search_brands :=
    if search_brand_lower = "citroen" ∨ search_brand_lower = "citroën" then
      ["citroën", "citroen"]
    else [search_brand_lower]
  let brand_match := search_brands.any fun sb =>
    containsSub brand_lower sb || containsSub title_lower sb
  if !brand_match then false
  else if searchModel = "" then true
  else if !model_lower.isEmpty && containsSub model_lower search_model_lower then true
  else if isDigitStr search_model_lower && decide (search_model_lower.length ≤ 2) then
    if endsWithPy title_lower (" " ++ search_model_lower) then true
    else if endsWithPy title_lower (search_brand_lower ++ search_model_lower) then true
    else
      [search_brand_lower ++ " " ++ search_model_lower,
       search_brand_lower ++ search_model_lower ++ " ",
       search_brand_lower ++ search_model_lower ++ ",",
       " " ++ search_model_lower ++ " "].any fun p => containsSub title_lower p
  else
    [search_model_lower,
     " " ++ search_model_lower ++ " ",
     " " ++ search_model_lower ++ ",",
     " " ++ search_model_lower ++ "."].any fun p =>
      containsSub title_lower p || containsSub model_lower p

/-! ## Rule engine configuration and ScoreResult (filters.py)

The two YAML documents are embedded as a `Config` record holding the resolved
values the code reads through `dict.get(key, default)`; the record defaults are
the source's defaults.  `ScoreResult` mirrors the dataclass (filters.py 18-28),
with `Option String` for the optional exclusion reason. -/

structure ScoreResult where
  total_score : Int := 0
  priority : String := "low"
  bonuses : List String := []
  penalties : List String := []
  warnings : List String := []
  excluded : Bool := false
  exclusion_reason : Option String := none
deriving DecidableEq, Repr

structure BrandRule where
  engines : List String := []
  transmissions : List String := []
  require_manual : Bool := false
  accepted_engines : List String := []
  reason : String := ""
deriving DecidableEq, Repr

structure Scoring where
  mazda_2_essence : Int := 10
  honda_jazz_manuelle : Int := 10
  swift_3_post_2010 : Int := 10
  seat_ibiza_atmo : Int := 5
  toyota_yaris : Int := 5
  distribution_done : Int := 3
  chain_engine : Int := 3
  history_mentioned : Int := 3
  price_under_2500 : Int := 2
  km_under_100000 : Int := 2
  diesel_penalty : Int := -5
  blacklist_keyword_penalty : Int := -10
deriving DecidableEq, Repr

structure Config where
  blacklist_keywords : List (String × List String) := []
  brand_exclusions : List (String × BrandRule) := []
  maintenance_keywords : List String := []
  scoring : Scoring := {}
  max_price : Int := 3000
  max_km : Int := 150000
  min_year : Int := 2008
  general_gearbox : String := "manuelle"
  general_fuel : String := "essence"
  high_threshold : Int := 15
  medium_threshold : Int := 10
deriving DecidableEq, Repr

/-- Accent simplification table of `CarFilter._normalize_text` (filters.py 86-108). -/
def normChar (c : Char) : Char :=
  if c = 'é' ∨ c = 'è' ∨ c = 'ê' ∨ c = 'ë' then 'e'
  else if c = 'à' ∨ c = 'â' then 'a'
  else if c = 'ù' ∨ c = 'û' then 'u'
  else if c = 'ô' then 'o'
  else if c = 'î' ∨ c = 'ï' then 'i'
  else if c = 'ç' then 'c'
  else c

/-- `CarFilter._normalize_text`: lowercase then strip common accents. -/
def normalize_text (s : String) : String :=
  ⟨(pyLower s).data.map normChar⟩

/-- Python dict lookup `d.get(k)` on an association list (dict keys unique). -/
def assocFind {α : Type} (l : List (String × α)) (k : String) : Option α :=
  (l.find? fun p => p.1 = k).map (·.2)

/-- First keyword in `kws` whose normalized form is a substring of the
normalized text `tn` (the keyword loops of `_check_blacklist`,
the maintenance bonus and the suspicious-keyword penalty). -/
def firstMatchIn (tn : String) : List String → Option String
  | [] => none
  | kw :: rest =>
      if containsSub tn (normalize_text kw) then some kw else firstMatchIn tn rest

/-- Category loop of `_check_blacklist`. -/
def firstBlacklistAux (tn : String) : List (String × List String) → Option String
  | [] => none
  | (_, kws) :: rest =>
      match firstMatchIn tn kws with
      | some kw => some kw
      | none => firstBlacklistAux tn rest

/-- `CarFilter._check_blacklist` (filters.py 110-127): first blacklisted
keyword across all categories in order, or `none`. -/
def check_blacklist (cfg : Config) (text : String) : Option String :=
  firstBlacklistAux (normalize_text text) cfg.blacklist_keywords

/-- Word character of the regex `\b` boundary (`\w`, ASCII fragment). -/
def isWordChar (c : Char) : Bool :=
  c.isAlphanum || c = '_'

/-- Tail of the Seat guard regex after `1.[24]`: `\s*(tsi|tdi)\b`. -/
def seatAfterDigit (cs : List Char) : Bool :=
  let cs' := cs.dropWhile fun c => c.isWhitespace
  ("tsi".data.isPrefixOf cs' || "tdi".data.isPrefixOf cs') &&
    (match cs'.drop 3 with
     | [] => true
     | c :: _ => !isWordChar c)

/-- Match of `1\.[24]\s*(tsi|tdi)\b` at the head of the character list. -/
def seatMatchAt : List Char → Bool
  | '1' :: '.' :: d :: rest => (d = '2' || d = '4') && seatAfterDigit rest
  | _ => false

/-- Scan for `re.search`: a match may start at any position whose predecessor
is not a word character (the leading `\b`, given the pattern starts with `1`). -/
def seatScanAux (prevWord : Bool) : List Char → Bool
  | [] => false
  | c :: rest => (!prevWord && seatMatchAt (c :: rest)) || seatScanAux (isWordChar c) rest

/-- `re.search(r"\b1\.[24]\s*(tsi|tdi)\b", text, re.IGNORECASE)` as a Bool;
the call site lower-cases `text` first, so the ASCII case-sensitive scan on the
lowered text coincides with `IGNORECASE`. -/
def seatTsiTdiSearch (text : String) : Bool :=
  seatScanAux false text.data

structure BrandCheck where
  is_excluded : Bool
  reason : Option String
  warnings : List String
deriving DecidableEq, Repr

/-- First pattern in `pats` whose lower-cased form is a substring of `text`
(the engine/transmission loops of `_check_brand_exclusions`). -/
def firstSubstrMatch (text : String) : List String → Option String
  | [] => none
  | p :: rest => if containsSub text (pyLower p) then some p else firstSubstrMatch text rest

/-- `CarFilter._check_brand_exclusions` (filters.py 129-188): engine exclusions,
transmission exclusions, the require-manual warning, and the Seat TSI/TDI guard,
in source order. -/
def check_brand_exclusions (cfg : Config) (brand title description engine : String) :
    BrandCheck :=
  let brand_lower := pyLower brand
  let text := pyLower (title ++ " " ++ description ++ " " ++ engine)
  match assocFind cfg.brand_exclusions brand_lower with
  | none => ⟨false, none, []⟩
  | some rule =>
    match firstSubstrMatch text rule.engines with
    | some pat => ⟨true, some ("Moteur exclu: " ++ pat ++ " - " ++ rule.reason), []⟩
    | none =>
      match firstSubstrMatch text rule.transmissions with
      | some pat => ⟨true, some ("Transmission exclue: " ++ pat ++ " - " ++ rule.reason), []⟩
      | none =>
        let warnings :=
          if rule.require_manual && !containsSub text "manuelle" && !containsSub text "manuel"
          then ["Vérifier absence CVT/automatique"] else []
        if brand_lower = "seat" then
          let engine_detected :=
            rule.accepted_engines.any fun acc => containsSub text (pyLower acc)
          if seatTsiTdiSearch text && !engine_detected then
            ⟨true, some "Seat Ibiza avec moteur TSI/TDI exclu", warnings⟩
          else ⟨false, none, warnings⟩
        else ⟨false, none, warnings⟩

/-- Classification of the single awarded maintenance keyword
(filters.py 240-251): distribution first, then chain, else generic history. -/
def maintBonus (cfg : Config) (kw : String) : Int × String :=
  if containsSub (pyLower kw) "distribution" then
    (cfg.scoring.distribution_done, "+3 Distribution mentionnée")
  else if containsSub (pyLower kw) "chaîne" || containsSub (pyLower kw) "chaine" then
    (cfg.scoring.chain_engine, "+3 Moteur chaîne")
  else
    (cfg.scoring.history_mentioned, "+3 Entretien suivi")

/-- The three maintenance sub-bonus explanation strings (the only strings the
maintenance clause can append to `bonuses`). -/
def isMaintLabel (s : String) : Bool :=
  s == "+3 Distribution mentionnée" || s == "+3 Moteur chaîne" || s == "+3 Entretien suivi"

/-- Mazda 2 essence/chain bonus clause (filters.py 207-212). -/
def bonusMazda2 (cfg : Config) (brand_lower model_lower text : String) : Int × List String :=
  if brand_lower = "mazda" ∧ containsSub model_lower "2" then
    if containsSub text "essence" || containsSub text "chaîne" || containsSub text "chaine" then
      (cfg.scoring.mazda_2_essence, ["+10 Mazda 2 essence/chaîne"])
    else (0, [])
  else (0, [])

/-- Honda Jazz manual bonus clause (filters.py 214-218). -/
def bonusHondaJazz (cfg : Config) (brand_lower model_lower text : String) : Int × List String :=
  if brand_lower = "honda" ∧ containsSub model_lower "jazz" then
    if containsSub text "manuelle" || containsSub text "manuel" then
      (cfg.scoring.honda_jazz_manuelle, ["+10 Honda Jazz manuelle"])
    else (0, [])
  else (0, [])

/-- Suzuki Swift bonus clause (filters.py 220-223). -/
def bonusSwift (cfg : Config) (brand_lower model_lower : String) : Int × List String :=
  if brand_lower = "suzuki" ∧ containsSub model_lower "swift" then
    (cfg.scoring.swift_3_post_2010, ["+10 Suzuki Swift 3"])
  else (0, [])

/-- Seat Ibiza atmospheric bonus clause (filters.py 225-229). -/
def bonusIbiza (cfg : Config) (brand_lower model_lower text : String) : Int × List String :=
  if brand_lower = "seat" ∧ containsSub model_lower "ibiza" then
    if containsSub text "1.4 16v" || containsSub text "1.2 12v" ||
        containsSub text "atmosphérique" || containsSub text "atmo" then
      (cfg.scoring.seat_ibiza_atmo, ["+5 Seat Ibiza atmosphérique"])
    else (0, [])
  else (0, [])

/-- Toyota Yaris bonus clause (filters.py 231-234). -/
def bonusYaris (cfg : Config) (brand_lower model_lower : String) : Int × List String :=
  if brand_lower = "toyota" ∧ containsSub model_lower "yaris" then
    (cfg.scoring.toyota_yaris, ["+5 Toyota Yaris"])
  else (0, [])

/-- Maintenance-history bonus clause (filters.py 239-251): the loop over the
configured maintenance keywords with its `break` awards the classification of
the first matching keyword only. -/
def bonusMaintenance (cfg : Config) (text : String) : Int × List String :=
  match firstMatchIn (normalize_text text) cfg.maintenance_keywords with
  | some kw => ((maintBonus cfg kw).1, [(maintBonus cfg kw).2])
  | none => (0, [])

/-- Price-ceiling bonus clause (filters.py 253-256); `price` is already
`price or 0`, and `if price and price < 2500` needs truthiness. -/
def bonusPrice (cfg : Config) (price : Int) : Int × List String :=
  if price ≠ 0 ∧ price < 2500 then
    (cfg.scoring.price_under_2500, ["+2 Prix < 2500€"])
  else (0, [])

/-- Mileage-ceiling bonus clause (filters.py 258-261). -/
def bonusKm (cfg : Config) (mileage : Int) : Int × List String :=
  if mileage ≠ 0 ∧ mileage < 100000 then
    (cfg.scoring.km_under_100000, ["+2 Km < 100 000"])
  else (0, [])

/-- `CarFilter._calculate_bonus_points` (filters.py 190-263).  The pairs are
accumulated in the exact order the source appends to `bonuses`. -/
def calculate_bonus_points (cfg : Config) (brand model title description : String)
    (price mileage : Int) : Int × List String :=
  let text := pyLower (title ++ " " ++ description)
  let brand_lower := pyLower brand
  let model_lower := pyLower model
  let p1 := bonusMazda2 cfg brand_lower model_lower text
  let p2 := bonusHondaJazz cfg brand_lower model_lower text
  let p3 := bonusSwift cfg brand_lower model_lower
  let p4 := bonusIbiza cfg brand_lower model_lower text
  let p5 := bonusYaris cfg brand_lower model_lower
  let pm := bonusMaintenance cfg text
  let pp := bonusPrice cfg price
  let pk := bonusKm cfg mileage
  (p1.1 + p2.1 + p3.1 + p4.1 + p5.1 + pm.1 + pp.1 + pk.1,
   p1.2 ++ p2.2 ++ p3.2 ++ p4.2 ++ p5.2 ++ pm.2 ++ pp.2 ++ pk.2)

/-- `CarFilter._calculate_penalty_points` (filters.py 265-295): the diesel
penalty and the first suspicious-keyword penalty. -/
def calculate_penalty_points (cfg : Config) (brand title description fuel : String) :
    Int × List String :=
  let text := pyLower (title ++ " " ++ description ++ " " ++ fuel)
  let p1 : Int × List String :=
    if containsSub text "diesel" || (fuel ≠ "" && containsSub (pyLower fuel) "diesel") then
      (cfg.scoring.diesel_penalty, ["-5 Diesel"])
    else (0, [])
  let suspicious := (assocFind cfg.blacklist_keywords "suspicious").getD []
  let p2 : Int × List String :=
    match firstMatchIn (normalize_text text) suspicious with
    | some kw => (cfg.scoring.blacklist_keyword_penalty, ["-10 Mot suspect: " ++ kw])
    | none => (0, [])
  (p1.1 + p2.1, p1.2 ++ p2.2)

/-- Python truthiness of an `Optional[int]`: `None` and `0` are falsy. -/
def optTruthy : Option Int → Bool
  | none => false
  | some n => n != 0

/-- `CarFilter.evaluate` (filters.py 297-420).  `Optional[str]` arguments are
embedded as `String` with `""` for `None` (the code reads them only through
`x or ""` and falsiness tests); `Optional[int]` arguments keep `Option Int`
because `price and price > max` distinguishes `None`/`0` from other values.
Each early `return` on exclusion is a record literal; the brand-rule warnings
are attached (`result.warnings.extend`) before the general criteria run,
exactly as in the source. -/
def evaluate (cfg : Config) (title description : String) (price mileage year : Option Int)
    (fuel gearbox brand model engine : String) : ScoreResult :=
  let full_text := title ++ " " ++ description
  match check_blacklist cfg full_text with
  | some kw =>
      { excluded := true, exclusion_reason := some ("Mot-clé blacklist: " ++ kw) }
  | none =>
    let bc := check_brand_exclusions cfg brand title description engine
    if bc.is_excluded then
      { excluded := true, exclusion_reason := bc.reason }
    else
      if optTruthy price ∧ price.getD 0 > cfg.max_price then
        { excluded := true,
          exclusion_reason := some ("Prix " ++ toString (price.getD 0) ++ "€ > max " ++
            toString cfg.max_price ++ "€"),
          warnings := bc.warnings }
      else if optTruthy mileage ∧ mileage.getD 0 > cfg.max_km then
        { excluded := true,
          exclusion_reason := some ("Km " ++ toString (mileage.getD 0) ++ " > max " ++
            toString cfg.max_km),
          warnings := bc.warnings }
      else if optTruthy year ∧ year.getD 0 < cfg.min_year then
        { excluded := true,
          exclusion_reason := some ("Année " ++ toString (year.getD 0) ++ " < min " ++
            toString cfg.min_year),
          warnings := bc.warnings }
      else if gearbox ≠ "" ∧ cfg.general_gearbox = "manuelle" ∧
          containsSub (pyLower gearbox) "automatique" then
        { excluded := true, exclusion_reason := some "Boîte automatique exclue",
          warnings := bc.warnings }
      else
        let bp := calculate_bonus_points cfg brand model title description
          (price.getD 0) (mileage.getD 0)
        let pp := calculate_penalty_points cfg brand title description fuel
        let total := bp.1 + pp.1
        { total_score := total,
          priority :=
            if total > cfg.high_threshold then "high"
            else if total ≥ cfg.medium_threshold then "medium"
            else "low",
          bonuses := bp.2,
          penalties := pp.2,
          warnings := bc.warnings,
          excluded := false,
          exclusion_reason := none }

/-! ## Fetcher retry loop (scraper.py 169-288)

`LeboncoinScraper._make_request` is embedded as a state machine.  The mutable
`self._client` is an `Option Nat` holding the identity (User-Agent draw) of the
cached HTTP client; `random.choice(USER_AGENTS)` is a draw from a stream of
random values `rng`; the network is an oracle `statuses : Nat → Nat` giving the
HTTP status of attempt `i` (`0` stands for a transport timeout/network error,
which the source handles exactly like any non-200/403/429 status: log and
retry).  Sleeps and backoff delays do not affect the returned data and are not
modelled. -/

/-- `LeboncoinScraper._get_headers` / `random.choice(USER_AGENTS)`: draw the
next identity from the random stream. -/
def drawHeaders (rng : List Nat) : Nat × List Nat :=
  (rng.headD 0, rng.tail)

/-- `LeboncoinScraper._get_client` (scraper.py 192-200): return the cached
client, or create one with freshly drawn headers.  Result: the client used,
the new cached client, the remaining random stream. -/
def getClient (client : Option Nat) (rng : List Nat) : Nat × Option Nat × List Nat :=
  match client with
  | some c => (c, some c, rng)
  | none =>
      let d := drawHeaders rng
      (d.1, some d.1, d.2)

/-- The `for attempt in range(self.max_retries)` loop of `_make_request`
(scraper.py 257-288).  `c` is the local `client` variable obtained before the
loop; `stored` is `self._client`.  Returns the successful attempt index (or
`none` after exhausting retries), the final `self._client`, and the trace of
the header identity used by each attempt. -/
def requestLoop (c : Nat) (statuses : Nat → Nat) : Nat → Nat → Option Nat →
    Option Nat × Option Nat × List Nat
  | _, 0, stored => (none, stored, [])
  | i, n + 1, stored =>
      if statuses i = 200 then (some i, stored, [c])
      else
        let stored' := if statuses i = 403 then none else stored
        let r := requestLoop c statuses (i + 1) n stored'
        (r.1, r.2.1, c :: r.2.2)

/-- `LeboncoinScraper._make_request` (scraper.py 240-288): fetch the client
once before the loop, then run up to `maxRetries` attempts.  Exceptions are
caught inside the loop; exhaustion returns `none`. -/
def makeRequest (client : Option Nat) (rng : List Nat) (statuses : Nat → Nat)
    (maxRetries : Nat) : Option Nat × Option Nat × List Nat :=
  let g := getClient client rng
  requestLoop g.1 statuses 0 maxRetries g.2.1

/-- `LeboncoinScraper.search_cars` (scraper.py 359-419) downstream of the
fetch: on `None` response return `[]`; on success parse the body (the
`BeautifulSoup`/HTML boundary is the parameter `parse`), keep only listings
matching the search, and cap at `maxResults`. -/
def searchCarsFromResponse (resp : Option Nat) (parse : Nat → List CarListing)
    (brand model : String) (maxResults : Nat) : List CarListing :=
  match resp with
  | none => []
  | some body =>
      ((parse body).filter fun l => matches_search l brand model).take maxResults

/-! ## Threshold setter and its command boundary
(filters.py 81-84, telegram_bot.py 230-258) -/

/-- The mutable threshold state of `CarFilter`. -/
structure FilterThresholds where
  high_threshold : Int
  medium_threshold : Int
deriving DecidableEq, Repr

/-- `CarFilter.set_high_threshold` (filters.py 81-84): unconditional update. -/
def set_high_threshold (st : FilterThresholds) (value : Int) : FilterThresholds :=
  { st with high_threshold := value }

/-- Python `int(s)`: optional surrounding spaces, optional sign, a nonempty
digit string; anything else raises `ValueError` (`none` here). -/
def pyParseInt (s : String) : Option Int :=
  let cs := (s.data.dropWhile (· = ' ')).reverse.dropWhile (· = ' ') |>.reverse
  match cs with
  | '-' :: ds => if ds ≠ [] ∧ ds.all Char.isDigit then
      some (-(Int.ofNat (ds.foldl (fun a c => a * 10 + (c.toNat - 48)) 0))) else none
  | '+' :: ds => if ds ≠ [] ∧ ds.all Char.isDigit then
      some (Int.ofNat (ds.foldl (fun a c => a * 10 + (c.toNat - 48)) 0)) else none
  | ds => if ds ≠ [] ∧ ds.all Char.isDigit then
      some (Int.ofNat (ds.foldl (fun a c => a * 10 + (c.toNat - 48)) 0)) else none

/-- `TelegramBot._cmd_set_high_score` (telegram_bot.py 230-258): parse the
first argument, validate the 0-100 range (out of range raises `ValueError`,
caught together with parse failures by the handler), and only then call the
setter.  Returns the new threshold state and the reply text. -/
def cmdSetHighScore (st : FilterThresholds) (args : List String) :
    FilterThresholds × String :=
  match args with
  | [] => (st, "Seuil actuel: " ++ toString st.high_threshold ++
      " -- Usage: /sethighscore <valeur>")
  | a :: _ =>
      match pyParseInt a with
      | none => (st, "Valeur invalide. Usage: /sethighscore <nombre entre 0 et 100>")
      | some n =>
          if n < 0 ∨ n > 100 then
            (st, "Valeur invalide. Usage: /sethighscore <nombre entre 0 et 100>")
          else
            (set_high_threshold st n,
             "Seuil de haute priorité mis à jour: " ++ toString n)

/-! ## Extractor (scraper.py 421-578)

An ad record of the embedded `__NEXT_DATA__` JSON is an `Ad`; attribute dicts
are association lists (`attr.get("key")`/`attr.get("value")` both truthy, last
duplicate wins, as in the dict comprehension); the `price` JSON value may be
absent, a scalar, or a list.  A markup card of the fallback path is a `Card`
holding what the element scan recovers (href, optional title text, optional
price text). -/

inductive PriceField where
  | absent
  | scalar (n : Int)
  | plist (l : List (Option Int))
deriving DecidableEq, Repr

structure Ad where
  list_id : String := ""
  subject : Option String := none
  price : PriceField := .absent
  attributes : List (String × String) := []
  imageUrls : List String := []
  smallUrl : String := ""
  city : String := ""
  body : String := ""
deriving DecidableEq, Repr

structure Card where
  href : String := ""
  titleText : Option String := none
  priceText : Option String := none
deriving DecidableEq, Repr

/-- The dict comprehension over `ad["attributes"]` followed by `.get(k, d)`:
pairs with falsy key or value are dropped, later keys overwrite earlier ones. -/
def attrGet (attrs : List (String × String)) (k d : String) : String :=
  match (attrs.filter fun p => p.1 ≠ "" ∧ p.2 ≠ "").reverse.find? (fun p => p.1 = k) with
  | some p => p.2
  | none => d

/-- Digit value of a character. -/
def dval (c : Char) : Nat := c.toNat - 48

/-- Numeric value of a digit run. -/
def natOfDigits (ds : List Char) : Nat :=
  ds.foldl (fun a c => a * 10 + dval c) 0

/-- `re.search(r"(\d+)", s)` then `int(group(1))`: the maximal digit run at the
earliest digit position, if any. -/
def firstDigitRun : List Char → Option Nat
  | [] => none
  | c :: rest =>
      if c.isDigit then some (natOfDigits (c :: rest.takeWhile Char.isDigit))
      else firstDigitRun rest

/-- Position scan for `year4`. -/
def year4Aux : List Char → Option Nat
  | c1 :: c2 :: c3 :: c4 :: rest =>
      if c1.isDigit ∧ c2.isDigit ∧ c3.isDigit ∧ c4.isDigit then
        some (dval c1 * 1000 + dval c2 * 100 + dval c3 * 10 + dval c4)
      else year4Aux (c2 :: c3 :: c4 :: rest)
  | _ => none

/-- `re.search(r"(\d{4})", s)` then `int(group(1))` (scraper.py 482-488): the
four consecutive digits at the earliest position where four digits in a row
occur. -/
def year4 (s : String) : Option Nat :=
  year4Aux s.data

/-- Maximal digit runs of a string, in order (`acc` is the reversed current run). -/
def specRunsAux : List Char → List Char → List (List Char)
  | [], acc => if acc = [] then [] else [acc.reverse]
  | c :: rest, acc =>
      if c.isDigit then specRunsAux rest (c :: acc)
      else if acc = [] then specRunsAux rest []
      else acc.reverse :: specRunsAux rest []

/-- Modelled from the spec: "Year extraction takes the first run of exactly
four digits from an arbitrary registration-date string."  The maximal digit
runs of the string are collected in order and the first one of length exactly
four is the year.  Used only to compare the spec reading against `year4`. -/
def specYear4 (s : String) : Option Nat :=
  ((specRunsAux s.data []).find? fun r => r.length = 4).map natOfDigits

/-- `ad.get("price", [None])[0] if isinstance(ad.get("price"), list) else
ad.get("price")` (scraper.py 506): an empty price list raises `IndexError`,
caught by the surrounding `try` which makes `_parse_ad_json` return `None`. -/
def priceVal : PriceField → Except Unit (Option Int)
  | .absent => .ok none
  | .scalar n => .ok (some n)
  | .plist [] => .error ()
  | .plist (x :: _) => .ok x

/-- `LeboncoinScraper._parse_ad_json` (scraper.py 458-522): drop records
without a non-empty `list_id`; extract mileage and year by regex digit
extraction; normalize the price shape; prefer the image URL list over the
single small URL; brand/model fall back to the searched brand/model. -/
def parse_ad_json (ad : Ad) (brand model : String) : Option CarListing :=
  if ad.list_id = "" then none
  else
    let mileage_str := attrGet ad.attributes "mileage" ""
    let mileage : Option Int :=
      if mileage_str = "" then none
      else (firstDigitRun (mileage_str.data.filter (· ≠ ' '))).map Int.ofNat
    let regdate := attrGet ad.attributes "regdate" ""
    let year : Option Int :=
      if regdate = "" then none else (year4 regdate).map Int.ofNat
    let image_url : Option String :=
      if ad.imageUrls ≠ [] then ad.imageUrls.head?
      else if ad.smallUrl ≠ "" then some ad.smallUrl
      else none
    match priceVal ad.price with
    | .error _ => none
    | .ok price =>
        some
          { listing_id := ad.list_id,
            url := "https://www.leboncoin.fr/ad/voitures/" ++ ad.list_id ++ ".htm",
            title := ad.subject.getD "Sans titre",
            price := price,
            mileage := mileage,
            year := year,
            fuel := attrGet ad.attributes "fuel" "",
            gearbox := attrGet ad.attributes "gearbox" "",
            brand := attrGet ad.attributes "brand" brand,
            model := attrGet ad.attributes "model" model,
            engine := attrGet ad.attributes "vehicle_engine" "",
            location := ad.city,
            description := ad.body,
            image_url := image_url }

/-- `re.search(r"/(\d+)\.htm", href)` (scraper.py 545-548): at the earliest
`/` followed by at least one digit, the maximal digit run must be followed by
`.htm` (the greedy `\d+` cannot backtrack into a successful shorter match
because `.` is not a digit); the captured group is that run. -/
def findIdInHref : List Char → Option String
  | [] => none
  | c :: rest =>
      if c = '/' then
        if rest.takeWhile Char.isDigit ≠ [] ∧
            ".htm".data.isPrefixOf (rest.dropWhile Char.isDigit) then
          some ⟨rest.takeWhile Char.isDigit⟩
        else findIdInHref rest
      else findIdInHref rest

/-- One card of `LeboncoinScraper._parse_html_fallback` (scraper.py 538-576):
skip cards without an href containing `/ad/`, skip cards whose href has no
numeric-id suffix, then build the listing with title, digit-extracted price,
and the searched brand/model. -/
def parseCard (brand model : String) (card : Card) : Option CarListing :=
  if card.href = "" then none
  else if !containsSub card.href "/ad/" then none
  else
    match findIdInHref card.href.data with
    | none => none
    | some lid =>
        some
          { listing_id := lid,
            url := if "/".data.isPrefixOf card.href.data then
                "https://www.leboncoin.fr" ++ card.href
              else card.href,
            title := card.titleText.getD "Sans titre",
            price := (card.priceText.bind fun pt =>
              firstDigitRun (pt.data.filter (· ≠ ' '))).map Int.ofNat,
            brand := brand,
            model := model }

/-- `LeboncoinScraper._parse_html_fallback` (scraper.py 524-578). -/
def parse_html_fallback (cards : List Card) (brand model : String) : List CarListing :=
  cards.filterMap (parseCard brand model)

/-- `LeboncoinScraper._parse_search_results` (scraper.py 421-456): the
structured-data path over the embedded JSON ads (`none` when the container is
absent or unparseable), with the markup fallback used only when it yields no
listings. -/
def parse_search_results (adsOpt : Option (List Ad)) (cards : List Card)
    (brand model : String) : List CarListing :=
  let listings :=
    match adsOpt with
    | some ads => ads.filterMap (fun ad => parse_ad_json ad brand model)
    | none => []
  if listings.isEmpty then parse_html_fallback cards brand model else listings

/-! ## Concrete instances used by the theorems below -/

/-- A configuration whose only content is a Honda brand rule requiring a
manual gearbox (as the repository's Honda Jazz rule does). -/
def hondaManualCfg : Config :=
  { brand_exclusions := [("honda", { require_manual := true })] }

/-- A configuration whose only content is a global blacklist entry. -/
def panneCfg : Config :=
  { blacklist_keywords := [("etat_general", ["panne"])] }

/-- A maintenance keyword list where a generic-history keyword precedes a
chain keyword. -/
def maintOrderCfg : Config :=
  { maintenance_keywords := ["carnet entretien", "chaine"] }

/-- Response oracle: first attempt is refused with 403, every later attempt
succeeds with 200. -/
def statuses403then200 : Nat → Nat :=
  fun i => if i = 0 then 403 else 200

/-- Response oracle: every attempt fails with 503. -/
def statusesAll503 : Nat → Nat :=
  fun _ => 503

/-- The listing `_parse_ad_json` produces for a JSON record carrying only
`list_id = "42"`, searched as brand `mazda`, model `2`. -/
def adOnlyIdListing : CarListing :=
  { listing_id := "42",
    url := "https://www.leboncoin.fr/ad/voitures/42.htm",
    title := "Sans titre",
    brand := "mazda",
    model := "2" }

/-! ## Helper lemmas -/

theorem isMaintLabel_maintBonus (cfg : Config) (kw : String) :
    isMaintLabel (maintBonus cfg kw).2 = true := by
  unfold maintBonus
  split
  · exact (by decide : isMaintLabel "+3 Distribution mentionnée" = true)
  · split
    · exact (by decide : isMaintLabel "+3 Moteur chaîne" = true)
    · exact (by decide : isMaintLabel "+3 Entretien suivi" = true)

theorem filter_bonusMazda2 (cfg : Config) (bl ml tx : String) :
    (bonusMazda2 cfg bl ml tx).2.filter isMaintLabel = [] := by
  unfold bonusMazda2
  split
  · split
    · exact (by decide : List.filter isMaintLabel ["+10 Mazda 2 essence/chaîne"] = [])
    · rfl
  · rfl

theorem filter_bonusHondaJazz (cfg : Config) (bl ml tx : String) :
    (bonusHondaJazz cfg bl ml tx).2.filter isMaintLabel = [] := by
  unfold bonusHondaJazz
  split
  · split
    · exact (by decide : List.filter isMaintLabel ["+10 Honda Jazz manuelle"] = [])
    · rfl
  · rfl

theorem filter_bonusSwift (cfg : Config) (bl ml : String) :
    (bonusSwift cfg bl ml).2.filter isMaintLabel = [] := by
  unfold bonusSwift
  split
  · exact (by decide : List.filter isMaintLabel ["+10 Suzuki Swift 3"] = [])
  · rfl

theorem filter_bonusIbiza (cfg : Config) (bl ml tx : String) :
    (bonusIbiza cfg bl ml tx).2.filter isMaintLabel = [] := by
  unfold bonusIbiza
  split
  · split
    · exact (by decide : List.filter isMaintLabel ["+5 Seat Ibiza atmosphérique"] = [])
    · rfl
  · rfl

theorem filter_bonusYaris (cfg : Config) (bl ml : String) :
    (bonusYaris cfg bl ml).2.filter isMaintLabel = [] := by
  unfold bonusYaris
  split
  · exact (by decide : List.filter isMaintLabel ["+5 Toyota Yaris"] = [])
  · rfl

theorem filter_bonusPrice (cfg : Config) (p : Int) :
    (bonusPrice cfg p).2.filter isMaintLabel = [] := by
  unfold bonusPrice
  split
  · exact (by decide : List.filter isMaintLabel ["+2 Prix < 2500€"] = [])
  · rfl

theorem filter_bonusKm (cfg : Config) (m : Int) :
    (bonusKm cfg m).2.filter isMaintLabel = [] := by
  unfold bonusKm
  split
  · exact (by decide : List.filter isMaintLabel ["+2 Km < 100 000"] = [])
  · rfl

theorem filter_bonusMaintenance (cfg : Config) (tx : String) :
    (bonusMaintenance cfg tx).2.filter isMaintLabel = (bonusMaintenance cfg tx).2 := by
  unfold bonusMaintenance
  split
  · simp [List.filter, isMaintLabel_maintBonus]
  · simp

theorem mem_bonusMazda2 (cfg : Config) (bl ml tx s : String) :
    s ∈ (bonusMazda2 cfg bl ml tx).2 → s = "+10 Mazda 2 essence/chaîne" := by
  unfold bonusMazda2
  split
  · split <;> intro hm <;> simp at hm
    exact hm
  · intro hm; simp at hm

theorem mem_bonusHondaJazz (cfg : Config) (bl ml tx s : String) :
    s ∈ (bonusHondaJazz cfg bl ml tx).2 → s = "+10 Honda Jazz manuelle" := by
  unfold bonusHondaJazz
  split
  · split <;> intro hm <;> simp at hm
    exact hm
  · intro hm; simp at hm

theorem mem_bonusSwift (cfg : Config) (bl ml s : String) :
    s ∈ (bonusSwift cfg bl ml).2 → s = "+10 Suzuki Swift 3" := by
  unfold bonusSwift
  split <;> intro hm <;> simp at hm
  exact hm

theorem mem_bonusIbiza (cfg : Config) (bl ml tx s : String) :
    s ∈ (bonusIbiza cfg bl ml tx).2 → s = "+5 Seat Ibiza atmosphérique" := by
  unfold bonusIbiza
  split
  · split <;> intro hm <;> simp at hm
    exact hm
  · intro hm; simp at hm

theorem mem_bonusYaris (cfg : Config) (bl ml s : String) :
    s ∈ (bonusYaris cfg bl ml).2 → s = "+5 Toyota Yaris" := by
  unfold bonusYaris
  split <;> intro hm <;> simp at hm
  exact hm

theorem mem_bonusMaintenance (cfg : Config) (tx s : String) :
    s ∈ (bonusMaintenance cfg tx).2 → isMaintLabel s = true := by
  unfold bonusMaintenance
  split
  · intro hm
    simp at hm
    subst hm
    exact isMaintLabel_maintBonus ..
  · intro hm; simp at hm

theorem mem_bonusPrice (cfg : Config) (p : Int) (s : String) :
    s ∈ (bonusPrice cfg p).2 → s = "+2 Prix < 2500€" ∧ p ≠ 0 ∧ p < 2500 := by
  unfold bonusPrice
  split
  · rename_i hc; intro hm; simp at hm; exact ⟨hm, hc⟩
  · intro hm; simp at hm

theorem mem_bonusKm (cfg : Config) (m : Int) (s : String) :
    s ∈ (bonusKm cfg m).2 → s = "+2 Km < 100 000" ∧ m ≠ 0 ∧ m < 100000 := by
  unfold bonusKm
  split
  · rename_i hc; intro hm; simp at hm; exact ⟨hm, hc⟩
  · intro hm; simp at hm

theorem mem_calculate_bonus_points (cfg : Config) (brand model title description : String)
    (price mileage : Int) (s : String) :
    s ∈ (calculate_bonus_points cfg brand model title description price mileage).2 →
      s = "+10 Mazda 2 essence/chaîne" ∨ s = "+10 Honda Jazz manuelle"
      ∨ s = "+10 Suzuki Swift 3" ∨ s = "+5 Seat Ibiza atmosphérique"
      ∨ s = "+5 Toyota Yaris" ∨ isMaintLabel s = true
      ∨ (s = "+2 Prix < 2500€" ∧ price ≠ 0 ∧ price < 2500)
      ∨ (s = "+2 Km < 100 000" ∧ mileage ≠ 0 ∧ mileage < 100000) := by
  intro hm
  simp only [calculate_bonus_points, List.mem_append] at hm
  rcases hm with ((((((hm | hm) | hm) | hm) | hm) | hm) | hm) | hm
  · have := mem_bonusMazda2 _ _ _ _ _ hm; tauto
  · have := mem_bonusHondaJazz _ _ _ _ _ hm; tauto
  · have := mem_bonusSwift _ _ _ _ hm; tauto
  · have := mem_bonusIbiza _ _ _ _ _ hm; tauto
  · have := mem_bonusYaris _ _ _ _ hm; tauto
  · have := mem_bonusMaintenance _ _ _ hm; tauto
  · have := mem_bonusPrice _ _ _ hm; tauto
  · have := mem_bonusKm _ _ _ hm; tauto

theorem requestLoop_none_stays (c : Nat) (st : Nat → Nat) :
    ∀ n i, (requestLoop c st i n none).2.1 = none := by
  intro n
  induction n with
  | zero => intro i; rfl
  | succ m ih =>
      intro i
      unfold requestLoop
      split
      · rfl
      · simp only []
        split <;> exact ih (i + 1)

theorem requestLoop_trace_all (c : Nat) (st : Nat → Nat) :
    ∀ n i stored, ((requestLoop c st i n stored).2.2).all (· == c) = true := by
  intro n
  induction n with
  | zero => intro i stored; rfl
  | succ m ih =>
      intro i stored
      unfold requestLoop
      split
      · simp
      · simp only [List.all_cons, Bool.and_eq_true, beq_self_eq_true, true_and]
        split <;> exact ih (i + 1) _

theorem requestLoop_403_clears (c : Nat) (st : Nat → Nat) :
    ∀ n i0 stored i j, (requestLoop c st i0 n stored).1 = some i →
      i0 ≤ j → j < i → st j = 403 → (requestLoop c st i0 n stored).2.1 = none := by
  intro n
  induction n with
  | zero => intro i0 stored i j h; cases h
  | succ m ih =>
      intro i0 stored i j hres hle hlt h403
      unfold requestLoop at hres ⊢
      by_cases h200 : st i0 = 200
      · rw [if_pos h200] at hres
        simp at hres
        exact (by omega : False).elim
      · rw [if_neg h200] at hres ⊢
        dsimp only at hres ⊢
        rcases Nat.eq_or_lt_of_le hle with heq | hlt0
        · subst heq
          rw [if_pos h403]
          exact requestLoop_none_stays c st m (i0 + 1)
        · exact ih (i0 + 1) _ i j hres hlt0 hlt h403

theorem requestLoop_all_fail (c : Nat) (st : Nat → Nat) :
    ∀ n i stored, (∀ k, k < n → st (i + k) ≠ 200) →
      (requestLoop c st i n stored).1 = none := by
  intro n
  induction n with
  | zero => intro i stored _; rfl
  | succ m ih =>
      intro i stored h
      unfold requestLoop
      split
      · rename_i h200
        exact absurd h200 (by simpa using h 0 (Nat.succ_pos m))
      · simp only []
        split <;>
          exact ih (i + 1) _ (fun k hk => by
            have := h (k + 1) (by omega)
            simpa [Nat.add_assoc, Nat.add_comm 1 k] using this)

theorem findIdInHref_ne_empty :
    ∀ cs s, findIdInHref cs = some s → s ≠ "" := by
  intro cs
  induction cs with
  | nil => intro s h; cases h
  | cons c rest ih =>
      intro s h
      unfold findIdInHref at h
      split at h
      · split at h
        · rename_i hcond
          simp only [Option.some.injEq] at h
          subst h
          intro habs
          have : (rest.takeWhile Char.isDigit) = [] := congrArg String.data habs
          exact hcond.1 this
        · exact ih s h
      · exact ih s h

theorem parseCard_listing_id (brand model : String) (card : Card) (l : CarListing) :
    parseCard brand model card = some l → l.listing_id ≠ "" := by
  unfold parseCard
  split
  · intro h; cases h
  · split
    · intro h; cases h
    · split
      · intro h; cases h
      · rename_i lid hfind
        intro h
        simp only [Option.some.injEq] at h
        subst h
        exact findIdInHref_ne_empty _ _ hfind

theorem parse_ad_json_listing_id (ad : Ad) (brand model : String) (l : CarListing) :
    parse_ad_json ad brand model = some l → l.listing_id ≠ "" := by
  unfold parse_ad_json
  split
  · intro h; cases h
  · rename_i hid
    dsimp only
    split
    · intro h; cases h
    · intro h
      simp only [Option.some.injEq] at h
      subst h
      exact hid

/-! ## Claim theorems -/

/-- C1: for every search with a requested brand and a purely numeric requested
model token of at most 2 digits, `matches_search` matches only when the
candidate's model field contains the token, or one of the strict title
patterns `"{brand} {model}"`, `"{brand}{model} "`, `"{brand}{model},"`,
`" {model} "` occurs as a substring of the title, or the title ends in
`" {model}"` or `"{brand}{model}"`; in particular, for brand `mazda`, model
`2`, the titles `Peugeot 2008` and `Peugeot 206` do not match while `Mazda 2`
and `Mazda2` do. -/
theorem matches_search_short_numeric_model_strict (l : CarListing)
    (searchBrand searchModel : String)
    (hdig : isDigitStr (pyLower searchModel) = true)
    (hlen : (pyLower searchModel).length ≤ 2) :
    (matches_search l searchBrand searchModel = true →
      containsSub (pyLower l.model) (pyLower searchModel) = true
      ∨ containsSub (pyLower l.title)
          (pyLower searchBrand ++ " " ++ pyLower searchModel) = true
      ∨ containsSub (pyLower l.title)
          (pyLower searchBrand ++ pyLower searchModel ++ " ") = true
      ∨ containsSub (pyLower l.title)
          (pyLower searchBrand ++ pyLower searchModel ++ ",") = true
      ∨ containsSub (pyLower l.title) (" " ++ pyLower searchModel ++ " ") = true
      ∨ endsWithPy (pyLower l.title) (" " ++ pyLower searchModel) = true
      ∨ endsWithPy (pyLower l.title)
          (pyLower searchBrand ++ pyLower searchModel) = true)
    ∧ matches_search { listing_id := "t1", title := "Peugeot 2008", brand := "mazda" }
        "mazda" "2" = false
    ∧ matches_search { listing_id := "t2", title := "Peugeot 206", brand := "mazda" }
        "mazda" "2" = false
    ∧ matches_search { listing_id := "t3", title := "Mazda 2" } "mazda" "2" = true
    ∧ matches_search { listing_id := "t4", title := "Mazda2" } "mazda" "2" = true := by
  refine ⟨?_, by decide, by decide, by decide, by decide⟩
  intro h
  simp only [matches_search] at h
  split at h
  all_goals (
    split at h
    · simp at h
    · split at h
      · rename_i hempty
        rw [hempty] at hdig
        simp [pyLower, isDigitStr] at hdig
      · split at h
        · rename_i hc
          exact Or.inl ((Bool.and_eq_true _ _).mp hc).2
        · split at h
          · split at h
            · rename_i he1
              tauto
            · split at h
              · rename_i he2
                tauto
              · simp only [List.any_cons, List.any_nil, Bool.or_eq_true] at h
                tauto
          · rename_i hnum
            simp [hdig, hlen] at hnum)

/-- Witness for C1 at the title `Mazda 2`, brand `mazda`, model `2`. -/
theorem matches_search_short_numeric_model_strict_witness :
    containsSub (pyLower "") (pyLower "2") = true
    ∨ containsSub (pyLower "Mazda 2") (pyLower "mazda" ++ " " ++ pyLower "2") = true
    ∨ containsSub (pyLower "Mazda 2") (pyLower "mazda" ++ pyLower "2" ++ " ") = true
    ∨ containsSub (pyLower "Mazda 2") (pyLower "mazda" ++ pyLower "2" ++ ",") = true
    ∨ containsSub (pyLower "Mazda 2") (" " ++ pyLower "2" ++ " ") = true
    ∨ endsWithPy (pyLower "Mazda 2") (" " ++ pyLower "2") = true
    ∨ endsWithPy (pyLower "Mazda 2") (pyLower "mazda" ++ pyLower "2") = true :=
  (matches_search_short_numeric_model_strict
    { listing_id := "w1", title := "Mazda 2" } "mazda" "2"
    (by decide) (by decide)).1 (by decide)

/-- C2: for every non-excluded evaluation the priority tier is determined by
`total_score` against the two thresholds alone: `high` iff the score strictly
exceeds the high threshold, `medium` iff it is at least the medium threshold
and not high, `low` otherwise. -/
theorem evaluate_priority_tier_of_total_score (cfg : Config)
    (title description : String) (price mileage year : Option Int)
    (fuel gearbox brand model engine : String)
    (h : (evaluate cfg title description price mileage year fuel gearbox brand model
      engine).excluded = false) :
    ((evaluate cfg title description price mileage year fuel gearbox brand model
        engine).priority = "high" ↔
      (evaluate cfg title description price mileage year fuel gearbox brand model
        engine).total_score > cfg.high_threshold)
    ∧ ((evaluate cfg title description price mileage year fuel gearbox brand model
        engine).priority = "medium" ↔
      ¬(evaluate cfg title description price mileage year fuel gearbox brand model
        engine).total_score > cfg.high_threshold ∧
      (evaluate cfg title description price mileage year fuel gearbox brand model
        engine).total_score ≥ cfg.medium_threshold)
    ∧ ((evaluate cfg title description price mileage year fuel gearbox brand model
        engine).priority = "low" ↔
      ¬(evaluate cfg title description price mileage year fuel gearbox brand model
        engine).total_score > cfg.high_threshold ∧
      ¬(evaluate cfg title description price mileage year fuel gearbox brand model
        engine).total_score ≥ cfg.medium_threshold) := by
  revert h
  simp only [evaluate]
  split
  · intro h; simp at h
  · split
    · intro h; simp at h
    · split
      · intro h; simp at h
      · split
        · intro h; simp at h
        · split
          · intro h; simp at h
          · split
            · intro h; simp at h
            · intro _
              split
              · rename_i hhigh
                exact ⟨by simp [hhigh], by simp [hhigh], by simp [hhigh]⟩
              · rename_i hhigh
                split
                · rename_i hmed
                  exact ⟨by simp [hhigh], by simp [hhigh, hmed], by simp [hmed]⟩
                · rename_i hmed
                  exact ⟨by simp [hhigh], by simp [hmed], by simp [hhigh, hmed]⟩

/-- Witness for C2 at the empty configuration and a trivial listing. -/
theorem evaluate_priority_tier_witness :
    (evaluate {} "titre" "" none none none "" "" "" "" "").priority = "high" ↔
      (evaluate {} "titre" "" none none none "" "" "" "" "").total_score >
        ({} : Config).high_threshold :=
  (evaluate_priority_tier_of_total_score {} "titre" "" none none none "" "" "" "" ""
    rfl).1

/-- C3 counterexample: the claim as stated is false — a brand rule requiring a
manual gearbox appends a warning on the non-excluding brand path, the warnings
are attached to the result, and a subsequent general-criteria exclusion (price
above the maximum) then returns an excluded result whose warnings list is not
empty. -/
theorem excluded_with_nonempty_warnings_cex :
    (evaluate hondaManualCfg "Honda Jazz" "" (some 5000) none none "" "" "honda"
      "jazz" "").excluded = true
    ∧ (evaluate hondaManualCfg "Honda Jazz" "" (some 5000) none none "" "" "honda"
      "jazz" "").warnings = ["Vérifier absence CVT/automatique"] :=
  ⟨rfl, rfl⟩

/-- C3 (amended): for every evaluation, an excluded result keeps the default
score fields (`total_score = 0`, `priority = "low"`, empty bonus and penalty
lists); its warnings are empty when the exclusion came from the blacklist or a
brand rule, and otherwise (a general-criteria exclusion) are exactly the
brand-rule warnings accumulated before the general checks. -/
theorem excluded_result_default_fields (cfg : Config) (title description : String)
    (price mileage year : Option Int) (fuel gearbox brand model engine : String)
    (h : (evaluate cfg title description price mileage year fuel gearbox brand model
      engine).excluded = true) :
    (evaluate cfg title description price mileage year fuel gearbox brand model
      engine).total_score = 0
    ∧ (evaluate cfg title description price mileage year fuel gearbox brand model
      engine).priority = "low"
    ∧ (evaluate cfg title description price mileage year fuel gearbox brand model
      engine).bonuses = []
    ∧ (evaluate cfg title description price mileage year fuel gearbox brand model
      engine).penalties = []
    ∧ ((evaluate cfg title description price mileage year fuel gearbox brand model
        engine).warnings = []
      ∨ (evaluate cfg title description price mileage year fuel gearbox brand model
        engine).warnings =
          (check_brand_exclusions cfg brand title description engine).warnings) := by
  revert h
  simp only [evaluate]
  split
  · intro _; exact ⟨rfl, rfl, rfl, rfl, Or.inl rfl⟩
  · split
    · intro _; exact ⟨rfl, rfl, rfl, rfl, Or.inl rfl⟩
    · split
      · intro _; exact ⟨rfl, rfl, rfl, rfl, Or.inr rfl⟩
      · split
        · intro _; exact ⟨rfl, rfl, rfl, rfl, Or.inr rfl⟩
        · split
          · intro _; exact ⟨rfl, rfl, rfl, rfl, Or.inr rfl⟩
          · split
            · intro _; exact ⟨rfl, rfl, rfl, rfl, Or.inr rfl⟩
            · intro h; simp at h

/-- Witness for C3 at a blacklist-excluded listing. -/
theorem excluded_result_default_fields_witness :
    (evaluate panneCfg "Voiture en panne" "" none none none "" "" "" "" "").total_score
      = 0 :=
  (excluded_result_default_fields panneCfg "Voiture en panne" "" none none none ""
    "" "" "" "" rfl).1

/-- C4 counterexample: the claimed category precedence (chain-engine first) is
false — with maintenance keywords `["carnet entretien", "chaine"]` and a text
containing both, the chain keyword matches the text, yet the generic history
sub-bonus is awarded because the first keyword in configured list order wins. -/
theorem maintenance_bonus_precedence_cex :
    containsSub (normalize_text (pyLower ("carnet entretien, chaine neuve" ++ " " ++ "")))
      (normalize_text "chaine") = true
    ∧ (calculate_bonus_points maintOrderCfg "" "" "carnet entretien, chaine neuve" ""
        0 0).2 = ["+3 Entretien suivi"] :=
  ⟨rfl, rfl⟩

/-- C4 (amended): for every evaluation, the maintenance clause contributes at
most one of its three sub-bonus strings to the bonus list, namely the
classification of the first configured maintenance keyword whose normalized
form occurs in the listing text (distribution-service if the keyword mentions
`distribution`, else chain-engine if it mentions `chaîne`/`chaine`, else
generic history); keyword list order, not category precedence, selects it. -/
theorem maintenance_bonus_single_award (cfg : Config)
    (brand model title description : String) (price mileage : Int) :
    ((calculate_bonus_points cfg brand model title description price mileage).2.filter
        isMaintLabel)
      = (bonusMaintenance cfg (pyLower (title ++ " " ++ description))).2
    ∧ (bonusMaintenance cfg (pyLower (title ++ " " ++ description))).2.length ≤ 1 := by
  constructor
  · simp only [calculate_bonus_points, List.filter_append, filter_bonusMazda2,
      filter_bonusHondaJazz, filter_bonusSwift, filter_bonusIbiza, filter_bonusYaris,
      filter_bonusPrice, filter_bonusKm, filter_bonusMaintenance,
      List.nil_append, List.append_nil]
  · unfold bonusMaintenance
    split <;> simp

/-- C5 counterexample: with no cached client, random stream `[7, 8, 9]` and a
403 on the first attempt, both attempts of the same fetch call carry the
identity `7` drawn at call start; the claimed rebuild-before-retry behavior
would have given the second attempt the fresh draw `8`. -/
theorem retry_after_403_same_headers_cex :
    (makeRequest none [7, 8, 9] statuses403then200 3).2.2 = [7, 7]
    ∧ (makeRequest none [7, 8, 9] statuses403then200 3).2.2 ≠ [7, 8] :=
  ⟨rfl, by decide⟩

/-- C5 (amended): header identities are drawn only when a client is created.
Within one fetch call every attempt uses the identity of the client obtained
at call start (a cache miss draws the next random value; a cached client is
reused unchanged), and a 403 on any attempt before success clears the cached
client, so only the next fetch call gets freshly drawn headers. -/
theorem client_identity_per_call (client : Option Nat) (rng : List Nat)
    (st : Nat → Nat) (n : Nat) :
    ((makeRequest client rng st n).2.2).all (· == (getClient client rng).1) = true
    ∧ (client = none → (getClient client rng).1 = rng.headD 0)
    ∧ (∀ k, client = some k → (getClient client rng).1 = k)
    ∧ (∀ i j, (makeRequest client rng st n).1 = some i → j < i → st j = 403 →
        (makeRequest client rng st n).2.1 = none) := by
  refine ⟨requestLoop_trace_all _ _ _ _ _, ?_, ?_, ?_⟩
  · intro h; subst h; rfl
  · intro k h; subst h; rfl
  · intro i j hres hlt h403
    exact requestLoop_403_clears _ _ n 0 _ i j hres (Nat.zero_le j) hlt h403

/-- Witness for C5: the 403 of the first attempt clears the cached client even
though the second attempt succeeds. -/
theorem client_identity_per_call_witness :
    (makeRequest none [7, 8, 9] statuses403then200 3).2.1 = none := by
  have h := client_identity_per_call none [7, 8, 9] statuses403then200 3
  exact h.2.2.2 1 0 rfl (by decide) rfl

/-- C6: when no attempt among the `max_retries` attempts returns HTTP 200, the
fetch returns `none` (no response, no exception) and the search orchestrator
then returns an empty listing list for that search. -/
theorem fetch_exhaustion_failure_empty_search (client : Option Nat) (rng : List Nat)
    (st : Nat → Nat) (n : Nat) (parse : Nat → List CarListing)
    (brand model : String) (maxResults : Nat)
    (h : ∀ k, k < n → st k ≠ 200) :
    (makeRequest client rng st n).1 = none
    ∧ searchCarsFromResponse (makeRequest client rng st n).1 parse brand model
        maxResults = [] := by
  have hres : (makeRequest client rng st n).1 = none :=
    requestLoop_all_fail _ _ n 0 _ (fun k hk => by simpa using h k hk)
  refine ⟨hres, ?_⟩
  rw [hres]
  rfl

/-- Witness for C6: three attempts all answered 503. -/
theorem fetch_exhaustion_failure_empty_search_witness :
    (makeRequest none [7, 8, 9] statusesAll503 3).1 = none
    ∧ searchCarsFromResponse (makeRequest none [7, 8, 9] statusesAll503 3).1
        (fun _ => []) "mazda" "2" 50 = [] :=
  fetch_exhaustion_failure_empty_search none [7, 8, 9] statusesAll503 3 (fun _ => [])
    "mazda" "2" 50 (fun _ _ => (by decide : (503 : Nat) ≠ 200))

/-- C7 counterexample: the claim as stated is false of the rule engine's own
setter — `set_high_threshold` accepts a negative value unconditionally and the
prior threshold state is changed, not preserved. -/
theorem set_high_threshold_unvalidated_cex :
    set_high_threshold ⟨15, 10⟩ (-5) = ⟨-5, 10⟩
    ∧ set_high_threshold ⟨15, 10⟩ (-5) ≠ ⟨15, 10⟩ :=
  ⟨rfl, by decide⟩

/-- C7 (amended): the validation lives at the chat-command boundary, not in
the setter: for every threshold command whose first argument fails to parse as
an integer or parses outside 0-100, the handler replies with the error message
and leaves the threshold state unchanged (the setter is never invoked). -/
theorem threshold_command_rejects_invalid (st : FilterThresholds)
    (args : List String) (a : String)
    (ha : args.head? = some a)
    (hbad : pyParseInt a = none ∨ ∃ n, pyParseInt a = some n ∧ (n < 0 ∨ n > 100)) :
    cmdSetHighScore st args =
      (st, "Valeur invalide. Usage: /sethighscore <nombre entre 0 et 100>") := by
  cases args with
  | nil => simp at ha
  | cons b rest =>
      have hb : b = a := by simpa using ha
      subst hb
      unfold cmdSetHighScore
      dsimp only
      rcases hbad with hnone | ⟨n, hn, hrange⟩
      · rw [hnone]
      · rw [hn]
        dsimp only
        rw [if_pos hrange]

/-- Witness for C7 at the argument `-5`. -/
theorem threshold_command_rejects_invalid_witness :
    cmdSetHighScore ⟨15, 10⟩ ["-5"] =
      (⟨15, 10⟩, "Valeur invalide. Usage: /sethighscore <nombre entre 0 et 100>") :=
  threshold_command_rejects_invalid ⟨15, 10⟩ ["-5"] "-5" rfl
    (Or.inr ⟨-5, rfl, Or.inl (by decide)⟩)

/-- C8: for every input, the extractor never returns a candidate with an empty
listing id — records without a non-empty id are dropped on the structured-data
path and cards without a recoverable numeric id are dropped on the markup
fallback path. -/
theorem extractor_listing_id_nonempty (adsOpt : Option (List Ad)) (cards : List Card)
    (brand model : String) (l : CarListing)
    (hmem : l ∈ parse_search_results adsOpt cards brand model) :
    l.listing_id ≠ "" := by
  have hfb : l ∈ parse_html_fallback cards brand model → l.listing_id ≠ "" := by
    intro hm
    unfold parse_html_fallback at hm
    rcases List.mem_filterMap.mp hm with ⟨card, _, hcard⟩
    exact parseCard_listing_id _ _ _ _ hcard
  unfold parse_search_results at hmem
  cases adsOpt with
  | none => exact hfb (by simpa using hmem)
  | some ads =>
      dsimp only at hmem
      split at hmem
      · exact hfb hmem
      · rcases List.mem_filterMap.mp hmem with ⟨ad, _, had⟩
        exact parse_ad_json_listing_id _ _ _ _ had

/-- Witness for C8 at a one-record structured payload carrying only an id. -/
theorem extractor_listing_id_nonempty_witness :
    adOnlyIdListing.listing_id ≠ "" :=
  extractor_listing_id_nonempty (some [{ list_id := "42" }]) [] "mazda" "2"
    adOnlyIdListing (by decide)

/-- C9 counterexample: the claim as stated is false — on `"20150601"` the
string has no digit run of exactly four digits (its single run has eight), so
the claimed rule yields no year, while the code's `re.search(r"(\d{4})")`
extraction returns 2015. -/
theorem year_extraction_window_vs_run_cex :
    year4 "20150601" = some 2015 ∧ specYear4 "20150601" = none :=
  ⟨rfl, rfl⟩

/-- C9 (amended): year extraction takes the four digits at the first position
where four consecutive digits occur — even inside a longer digit run; on the
given examples this agrees with taking the first run of exactly four digits:
`"01/2015"` yields 2015, `"2018-06"` yields 2018, `"2012"` yields 2012. -/
theorem year_extraction_first_window :
    year4 "01/2015" = some 2015 ∧ year4 "2018-06" = some 2018
    ∧ year4 "2012" = some 2012 ∧ year4 "20150601" = some 2015
    ∧ specYear4 "01/2015" = some 2015 ∧ specYear4 "2018-06" = some 2018
    ∧ specYear4 "2012" = some 2012 :=
  ⟨rfl, rfl, rfl, rfl, rfl, rfl, rfl⟩

/-- C10: for every evaluation, a missing (`None`) or zero price, mileage or
year is never excluded by the general maximum-price, maximum-mileage or
minimum-year checks, and those checks are strict so a value exactly equal to
the configured limit does not exclude; likewise a missing or zero price or
mileage never triggers the price- or mileage-under-ceiling bonus. -/
theorem zero_or_missing_not_excluded_no_bonus (cfg : Config)
    (title description : String) (price mileage year : Option Int)
    (fuel gearbox brand model engine : String)
    (hbl : check_blacklist cfg (title ++ " " ++ description) = none)
    (hbr : (check_brand_exclusions cfg brand title description engine).is_excluded
      = false)
    (hgear : containsSub (pyLower gearbox) "automatique" = false)
    (hp : price = none ∨ price = some 0 ∨ price = some cfg.max_price)
    (hm : mileage = none ∨ mileage = some 0 ∨ mileage = some cfg.max_km)
    (hy : year = none ∨ year = some 0 ∨ year = some cfg.min_year) :
    (evaluate cfg title description price mileage year fuel gearbox brand model
      engine).excluded = false
    ∧ (optTruthy price = false →
        "+2 Prix < 2500€" ∉ (evaluate cfg title description price mileage year fuel
          gearbox brand model engine).bonuses)
    ∧ (optTruthy mileage = false →
        "+2 Km < 100 000" ∉ (evaluate cfg title description price mileage year fuel
          gearbox brand model engine).bonuses) := by
  have hpc : ¬(optTruthy price = true ∧ price.getD 0 > cfg.max_price) := by
    rcases hp with rfl | rfl | rfl <;> simp [optTruthy]
  have hmc : ¬(optTruthy mileage = true ∧ mileage.getD 0 > cfg.max_km) := by
    rcases hm with rfl | rfl | rfl <;> simp [optTruthy]
  have hyc : ¬(optTruthy year = true ∧ year.getD 0 < cfg.min_year) := by
    rcases hy with rfl | rfl | rfl <;> simp [optTruthy]
  have hgc : ¬(gearbox ≠ "" ∧ cfg.general_gearbox = "manuelle" ∧
      containsSub (pyLower gearbox) "automatique" = true) := by
    simp [hgear]
  simp only [evaluate, hbl, hbr, Bool.false_eq_true, if_false, hpc, hmc, hyc, hgc,
    if_neg, ite_false]
  refine ⟨trivial, ?_, ?_⟩
  · intro htr hmem
    rcases mem_calculate_bonus_points _ _ _ _ _ _ _ _ hmem with
      h | h | h | h | h | h | h | h
    · simp at h
    · simp at h
    · simp at h
    · simp at h
    · simp at h
    · simp [isMaintLabel] at h
    · rcases h with ⟨_, hne, _⟩
      rcases price with _ | n
      · exact hne rfl
      · simp [optTruthy] at htr
        simp [htr] at hne
    · simp at h
  · intro htr hmem
    rcases mem_calculate_bonus_points _ _ _ _ _ _ _ _ hmem with
      h | h | h | h | h | h | h | h
    · simp at h
    · simp at h
    · simp at h
    · simp at h
    · simp at h
    · simp [isMaintLabel] at h
    · simp at h
    · rcases h with ⟨_, hne, _⟩
      rcases mileage with _ | n
      · exact hne rfl
      · simp [optTruthy] at htr
        simp [htr] at hne

/-- Witness for C10 at the empty configuration, missing price, zero mileage,
and a year equal to the default minimum. -/
theorem zero_or_missing_not_excluded_no_bonus_witness :
    (evaluate {} "Mazda 2" "" none (some 0) (some 2008) "" "" "" "" "").excluded
      = false
    ∧ "+2 Prix < 2500€" ∉
        (evaluate {} "Mazda 2" "" none (some 0) (some 2008) "" "" "" "" "").bonuses := by
  have h := zero_or_missing_not_excluded_no_bonus {} "Mazda 2" "" none (some 0)
    (some 2008) "" "" "" "" "" rfl rfl rfl (Or.inl rfl) (Or.inr (Or.inl rfl))
    (Or.inr (Or.inr rfl))
  exact ⟨h.1, h.2.1 rfl⟩
